import Mathlib

/-!
# Verification of the Asia Cup tournament backend

Shallow embedding of the request handlers of the Asia Cup REST backend
(`src/server.js`, which concatenates two server variants, and
`src/unnamed/part_000`, a third variant) together with proofs of the
frozen claims about them.

Modelling conventions:
* The process-wide mutable globals (`APP_ROLE`, `pool`, `isDatabaseConnected`,
  `isDatabaseReadOnly`) become an explicit `AppState` record; a handler that
  mutates a flag returns the new flag value.
* The database is a record of in-memory tables (`DbState`); the MySQL
  `AUTO_INCREMENT` counter of `GroupMatches` is the `nextMatchId` field.
  Auto-assigned surrogate keys of `Standings`/`PlayerStats` and the
  `CreatedAt` timestamps are omitted: no claim observes them.
* A database query that may fail at the driver level takes an extra boolean
  (`probeOk` / `queryOk`) standing for the outcome the environment produces.
* JavaScript truthiness of a request-body field (`!MatchDate`) is modelled on
  `Option String`: absent (`none`) and the empty string are falsy.
-/

namespace AsiaCup

/-- A row of the `GroupMatches` table (`CREATE TABLE` in src/server.js:84-94).
`CreatedAt` is omitted (wall-clock, unobserved by the claims). -/
structure MatchRow where
  matchId : Nat
  matchDate : String
  team1 : String
  team2 : String
  venue : Option String
  matchResult : Option String
  stage : Option String
deriving DecidableEq, Repr

/-- A row of the `Standings` table (src/server.js:96-107); the auto-increment
`TeamID` surrogate key and `CreatedAt` are omitted. -/
structure Standing where
  teamName : String
  matchesPlayed : Int
  wins : Int
  losses : Int
  points : Int
  goalDifference : Int
deriving DecidableEq, Repr

/-- A row of the `PlayerStats` table (src/server.js:109-120); `PlayerID` and
`CreatedAt` omitted. -/
structure PlayerStat where
  playerName : String
  team : String
  playedMatches : Int
  runs : Int
  wickets : Int
  catches : Int
deriving DecidableEq, Repr

/-- The three seed match rows of `insertSampleData` (src/server.js:137-141),
receiving consecutive auto-increment identifiers from `startId`. -/
def seedMatchRows (startId : Nat) : List MatchRow :=
  [⟨startId, "2025-09-01", "India", "Pakistan", some "Dubai", none, some "Group A"⟩,
   ⟨startId + 1, "2025-09-02", "Sri Lanka", "Bangladesh", some "Abu Dhabi", none, some "Group B"⟩,
   ⟨startId + 2, "2025-09-03", "Afghanistan", "Nepal", some "Sharjah", none, some "Group A"⟩]

/-- The four seed standings rows of `insertSampleData` (src/server.js:149-154). -/
def seedStandings : List Standing :=
  [⟨"India", 2, 2, 0, 4, 15⟩,
   ⟨"Pakistan", 2, 1, 1, 2, 5⟩,
   ⟨"Sri Lanka", 2, 1, 1, 2, -3⟩,
   ⟨"Bangladesh", 2, 0, 2, 0, -17⟩]

/-- The three seed player-stat rows of `insertSampleData` (src/server.js:162-166). -/
def seedPlayerStats : List PlayerStat :=
  [⟨"Virat Kohli", "India", 2, 156, 0, 3⟩,
   ⟨"Babar Azam", "Pakistan", 2, 128, 0, 2⟩,
   ⟨"Wanindu Hasaranga", "Sri Lanka", 2, 45, 5, 1⟩]

/-- The persisted database state: the three tables plus the auto-increment
counter of `GroupMatches`. -/
structure DbState where
  groupMatches : List MatchRow
  nextMatchId : Nat
  standings : List Standing
  playerStats : List PlayerStat
deriving DecidableEq, Repr

/-- First step of `insertSampleData` (src/server.js:134-143): seed matches are
inserted only when `SELECT COUNT(*) FROM GroupMatches` is zero. -/
def seedIfEmptyMatches (s : DbState) : DbState :=
  if s.groupMatches.length = 0 then
    { s with groupMatches := s.groupMatches ++ seedMatchRows s.nextMatchId,
             nextMatchId := s.nextMatchId + 3 }
  else s

/-- Second step of `insertSampleData` (src/server.js:146-156): seed standings
are inserted only when the `Standings` row count is zero. -/
def seedIfEmptyStandings (s : DbState) : DbState :=
  if s.standings.length = 0 then { s with standings := s.standings ++ seedStandings }
  else s

/-- Third step of `insertSampleData` (src/server.js:159-168): seed player stats
are inserted only when the `PlayerStats` row count is zero. -/
def seedIfEmptyPlayers (s : DbState) : DbState :=
  if s.playerStats.length = 0 then { s with playerStats := s.playerStats ++ seedPlayerStats }
  else s

/-- `insertSampleData` (src/server.js:131-172, identical in
src/unnamed/part_000:136-177): per-table count check then conditional seed
insert, in source order matches, standings, player stats. -/
def insertSampleData (s : DbState) : DbState :=
  seedIfEmptyPlayers (seedIfEmptyStandings (seedIfEmptyMatches s))

/-- The process-wide flags of the first src/server.js variant: `APP_ROLE`
(an arbitrary environment string, src/server.js:24), whether `pool` is
non-null, and the two cached booleans (src/server.js:32-34). -/
structure AppState where
  appRole : String
  poolInitialized : Bool
  isDatabaseConnected : Bool
  isDatabaseReadOnly : Bool
deriving DecidableEq, Repr

/-- Observable outcome of `GET /api/health` in the first src/server.js
variant: the `status` field of the JSON body, the HTTP status code, and the
value of the cached connectivity flag after the handler returns. -/
structure HealthResult where
  status : String
  httpStatus : Nat
  connectedAfter : Bool
deriving DecidableEq, Repr

/-- `GET /api/health` of the first src/server.js variant (lines 177-235).
Role-based classification (primary requires connected and not read-only;
secondary requires connected; any other role falls through with the initial
healthy/200), then, when `isDatabaseConnected && pool`, a `SELECT 1` liveness
probe whose failure (`probeOk = false`) forces degraded/503.  The handler
never assigns `isDatabaseConnected`, so the flag is returned unchanged. -/
def healthCheck (s : AppState) (probeOk : Bool) : HealthResult :=
  let roleStep : String × Nat :=
    if s.appRole = "primary" then
      if !s.isDatabaseConnected || s.isDatabaseReadOnly then ("degraded", 503)
      else ("healthy", 200)
    else if s.appRole = "secondary" then
      if !s.isDatabaseConnected then ("degraded", 503)
      else ("healthy", 200)
    else ("healthy", 200)
  if s.isDatabaseConnected && s.poolInitialized then
    if probeOk then ⟨roleStep.1, roleStep.2, s.isDatabaseConnected⟩
    else ⟨"degraded", 503, s.isDatabaseConnected⟩
  else ⟨roleStep.1, roleStep.2, s.isDatabaseConnected⟩

/-- Observable outcome of `GET /api/health` in src/unnamed/part_000: the
`status` and `database` fields of the JSON body, the HTTP status code, and
the connectivity flag after the handler returns. -/
structure HealthReportPart000 where
  status : String
  database : String
  httpStatus : Nat
  connectedAfter : Bool
deriving DecidableEq, Repr

/-- `GET /api/health` of src/unnamed/part_000 (lines 182-214): always HTTP
200 with status `OK`; when `isDatabaseConnected && pool`, a `SELECT 1` probe
whose failure sets `database` to `Connection lost` and assigns
`isDatabaseConnected = false`. -/
def healthCheckPart000 (connected poolInit probeOk : Bool) : HealthReportPart000 :=
  if connected && poolInit then
    if probeOk then ⟨"OK", "Connected and responsive", 200, connected⟩
    else ⟨"OK", "Connection lost", 200, false⟩
  else ⟨"OK", if connected then "Connected" else "Disconnected", 200, connected⟩

/-- Ordering used by the standings query
`SELECT * FROM Standings ORDER BY Points DESC, GoalDifference DESC`
(src/server.js:270): `a` precedes `b` when `a` has strictly more points, or
equal points and at least the goal difference of `b`. -/
def standingsLE (a b : Standing) : Prop :=
  b.points < a.points ∨ (a.points = b.points ∧ b.goalDifference ≤ a.goalDifference)

instance : DecidableRel standingsLE := fun a b => by
  unfold standingsLE; infer_instance

instance : IsTotal Standing standingsLE := ⟨by
  intro a b; unfold standingsLE; omega⟩

instance : IsTrans Standing standingsLE := ⟨by
  intro a b c hab hbc; unfold standingsLE at *; omega⟩

/-- The row order the database produces for the standings query. -/
def sortStandings (rows : List Standing) : List Standing :=
  List.insertionSort standingsLE rows

/-- Ordering of `SELECT * FROM GroupMatches ORDER BY MatchDate`
(src/server.js:248): ascending lexicographic date. -/
def matchDateLE (a b : MatchRow) : Prop := a.matchDate ≤ b.matchDate

instance : DecidableRel matchDateLE := fun a b => by
  unfold matchDateLE; infer_instance

/-- The row order the database produces for the group-matches query. -/
def sortMatches (rows : List MatchRow) : List MatchRow :=
  List.insertionSort matchDateLE rows

/-- Ordering of `SELECT * FROM PlayerStats ORDER BY Runs DESC, Wickets DESC`
(src/server.js:291). -/
def playerStatsLE (a b : PlayerStat) : Prop :=
  b.runs < a.runs ∨ (a.runs = b.runs ∧ b.wickets ≤ a.wickets)

instance : DecidableRel playerStatsLE := fun a b => by
  unfold playerStatsLE; infer_instance

/-- The row order the database produces for the player-stats query. -/
def sortPlayerStats (rows : List PlayerStat) : List PlayerStat :=
  List.insertionSort playerStatsLE rows

/-- Outcome of a read endpoint: HTTP status, whether a database query was
issued, and the rows returned on success. -/
structure ReadResult (α : Type) where
  httpStatus : Nat
  queried : Bool
  rows : Option (List α)

/-- `GET /api/group-matches` of the first src/server.js variant (lines
238-258) and of src/unnamed/part_000 (lines 237-255): guard
`!isDatabaseConnected || !pool` returns 503 without a query; otherwise the
query runs, a driver failure surfacing as 500. -/
def getGroupMatchesV1 (connected poolInit queryOk : Bool) (db : List MatchRow) :
    ReadResult MatchRow :=
  if !connected || !poolInit then ⟨503, false, none⟩
  else if queryOk then ⟨200, true, some (sortMatches db)⟩
  else ⟨500, true, none⟩

/-- `GET /api/standings` of the first src/server.js variant (lines 260-279)
and of src/unnamed/part_000 (lines 258-276): same guard as the matches
endpoint, query `ORDER BY Points DESC, GoalDifference DESC`. -/
def getStandingsV1 (connected poolInit queryOk : Bool) (db : List Standing) :
    ReadResult Standing :=
  if !connected || !poolInit then ⟨503, false, none⟩
  else if queryOk then ⟨200, true, some (sortStandings db)⟩
  else ⟨500, true, none⟩

/-- `GET /api/player-stats` of the first src/server.js variant (lines
281-300) and of src/unnamed/part_000 (lines 279-297). -/
def getPlayerStatsV1 (connected poolInit queryOk : Bool) (db : List PlayerStat) :
    ReadResult PlayerStat :=
  if !connected || !poolInit then ⟨503, false, none⟩
  else if queryOk then ⟨200, true, some (sortPlayerStats db)⟩
  else ⟨500, true, none⟩

/-- `GET /api/group-matches` of the second variant concatenated in
src/server.js (lines 562-571): `if (!pool) throw new Error(...)` is caught
by the surrounding `catch`, which answers 500 — not 503 — and no query is
issued; a driver failure after the guard also surfaces as 500. -/
def getGroupMatchesV2 (poolInit queryOk : Bool) (db : List MatchRow) :
    ReadResult MatchRow :=
  if !poolInit then ⟨500, false, none⟩
  else if queryOk then ⟨200, true, some (sortMatches db)⟩
  else ⟨500, true, none⟩

/-- The request body of `POST /api/match`; each field is absent or a string,
and `none` together with the empty string is JavaScript-falsy. -/
structure MatchReq where
  matchDate : Option String
  team1 : Option String
  team2 : Option String
  venue : Option String
  stage : Option String
deriving DecidableEq, Repr

/-- JavaScript truthiness of an optional string body field. -/
def truthy : Option String → Bool
  | none => false
  | some s => !(s = "")

/-- Outcome of `POST /api/match`: HTTP status, whether the insert query was
issued, the generated identifier on success, and the database afterwards. -/
structure PostMatchResult where
  httpStatus : Nat
  queried : Bool
  matchId : Option Nat
  db : DbState
deriving DecidableEq

/-- `POST /api/match` (src/server.js:303-343).  In source order: the cached
read-only flag answers 423; then role `secondary` answers 423; then missing
`MatchDate`/`Team1`/`Team2` answers 400; only then the insert runs,
returning 201 with the auto-increment `insertId` (driver failure: 500). -/
def postMatch (appRole : String) (isDatabaseReadOnly queryOk : Bool)
    (body : MatchReq) (db : DbState) : PostMatchResult :=
  if isDatabaseReadOnly then ⟨423, false, none, db⟩
  else if appRole = "secondary" then ⟨423, false, none, db⟩
  else if !truthy body.matchDate || !truthy body.team1 || !truthy body.team2 then
    ⟨400, false, none, db⟩
  else if queryOk then
    ⟨201, true, some db.nextMatchId,
     { db with
        groupMatches := db.groupMatches ++
          [⟨db.nextMatchId, body.matchDate.getD "", body.team1.getD "",
            body.team2.getD "", body.venue, none, body.stage⟩],
        nextMatchId := db.nextMatchId + 1 }⟩
  else ⟨500, true, none, db⟩

/-- The database state right after a first startup against empty tables. -/
def freshSeededDb : DbState :=
  insertSampleData ⟨[], 1, [], []⟩

/-- A permutation of the seed standings rows, used as a concrete stored
table order. -/
def seedStandingsShuffled : List Standing :=
  [⟨"Sri Lanka", 2, 1, 1, 2, -3⟩,
   ⟨"Bangladesh", 2, 0, 2, 0, -17⟩,
   ⟨"India", 2, 2, 0, 4, 15⟩,
   ⟨"Pakistan", 2, 1, 1, 2, 5⟩]

/-- C3: with role primary, the connectivity flag true and the read-only flag
true, the health endpoint reports status degraded with HTTP 503, whatever
the pool presence and probe outcome. -/
theorem health_primary_readonly_degraded :
    ∀ poolInit probeOk : Bool,
      (healthCheck ⟨"primary", poolInit, true, true⟩ probeOk).status = "degraded" ∧
      (healthCheck ⟨"primary", poolInit, true, true⟩ probeOk).httpStatus = 503 := by
  decide

/-- C4: with role secondary, the connectivity flag true and the read-only
flag true, a succeeding liveness probe leaves the health endpoint reporting
status healthy with HTTP 200. -/
theorem health_secondary_readonly_healthy :
    ∀ poolInit : Bool,
      (healthCheck ⟨"secondary", poolInit, true, true⟩ true).status = "healthy" ∧
      (healthCheck ⟨"secondary", poolInit, true, true⟩ true).httpStatus = 200 := by
  decide

/-- C1 counterexample: on a primary with the connectivity flag cached true
and a failing liveness probe, the src/server.js health handler does answer
degraded/503 but leaves the cached connectivity flag true, so the claimed
flip to false does not happen. -/
theorem health_probe_fail_flag_not_flipped :
    (healthCheck ⟨"primary", true, true, false⟩ false).status = "degraded" ∧
    (healthCheck ⟨"primary", true, true, false⟩ false).httpStatus = 503 ∧
    (healthCheck ⟨"primary", true, true, false⟩ false).connectedAfter ≠ false := by
  decide

/-- C1 amended: when the connectivity flag is cached true, the pool exists
and the liveness probe fails, the src/server.js health endpoint answers
degraded/503 regardless of role but leaves the cached connectivity flag
unchanged (true); the part_000 variant is the one that flips the flag to
false, yet it answers HTTP 200. -/
theorem health_probe_fail_degraded_flag_unchanged (s : AppState)
    (hconn : s.isDatabaseConnected = true) (hpool : s.poolInitialized = true) :
    (healthCheck s false).status = "degraded" ∧
    (healthCheck s false).httpStatus = 503 ∧
    (healthCheck s false).connectedAfter = true ∧
    (healthCheckPart000 true true false).connectedAfter = false ∧
    (healthCheckPart000 true true false).httpStatus = 200 := by
  obtain ⟨role, pInit, conn, ro⟩ := s
  simp only at hconn hpool
  subst hconn; subst hpool
  exact ⟨rfl, rfl, rfl, rfl, rfl⟩

/-- Witness for the amended C1 at a concrete state. -/
theorem health_probe_fail_degraded_flag_unchanged_witness :
    (⟨"primary", true, true, false⟩ : AppState).isDatabaseConnected = true ∧
    (⟨"primary", true, true, false⟩ : AppState).poolInitialized = true ∧
    (healthCheck ⟨"primary", true, true, false⟩ false).httpStatus = 503 :=
  ⟨rfl, rfl,
   (health_probe_fail_degraded_flag_unchanged ⟨"primary", true, true, false⟩ rfl rfl).2.1⟩

/-- C2 counterexample: with a role string that is neither primary nor
secondary and the connectivity flag false, the src/server.js health
endpoint answers healthy/200, not degraded/503. -/
theorem health_unknown_role_disconnected_200 :
    (healthCheck ⟨"replica", false, false, false⟩ true).status = "healthy" ∧
    (healthCheck ⟨"replica", false, false, false⟩ true).httpStatus = 200 := by
  decide

/-- C2 amended: with the connectivity flag false, the src/server.js health
endpoint answers degraded/503 when the role is primary or secondary, and
healthy/200 for every other role string; the part_000 variant answers HTTP
200 in every disconnected state. -/
theorem health_disconnected_by_role (s : AppState) (probeOk : Bool)
    (hconn : s.isDatabaseConnected = false) :
    ((s.appRole = "primary" ∨ s.appRole = "secondary") →
      (healthCheck s probeOk).status = "degraded" ∧
      (healthCheck s probeOk).httpStatus = 503) ∧
    ((s.appRole ≠ "primary" ∧ s.appRole ≠ "secondary") →
      (healthCheck s probeOk).status = "healthy" ∧
      (healthCheck s probeOk).httpStatus = 200) ∧
    (healthCheckPart000 false s.poolInitialized probeOk).httpStatus = 200 := by
  obtain ⟨role, pInit, conn, ro⟩ := s
  simp only at hconn
  subst hconn
  refine ⟨?_, ?_, rfl⟩
  · rintro (h | h) <;> subst h <;> exact ⟨rfl, rfl⟩
  · rintro ⟨hp, hs⟩
    constructor <;> simp [healthCheck, hp, hs]

/-- Witness for the amended C2 at a concrete state. -/
theorem health_disconnected_by_role_witness :
    (⟨"secondary", false, false, false⟩ : AppState).isDatabaseConnected = false ∧
    (healthCheck ⟨"secondary", false, false, false⟩ true).httpStatus = 503 :=
  ⟨rfl,
   ((health_disconnected_by_role ⟨"secondary", false, false, false⟩ true rfl).1
     (Or.inr rfl)).2⟩

/-- C5: whenever the cached read-only flag is true or the role is secondary,
POST /api/match answers 423, issues no query and leaves the database
unchanged, whatever the body and whether the write would succeed. -/
theorem postMatch_refused (role : String) (ro queryOk : Bool) (body : MatchReq)
    (db : DbState) (h : ro = true ∨ role = "secondary") :
    postMatch role ro queryOk body db = ⟨423, false, none, db⟩ := by
  rcases h with h | h
  · subst h; rfl
  · subst h; cases ro <;> rfl

/-- Witness for C5 at a concrete request. -/
theorem postMatch_refused_witness :
    ((true : Bool) = true ∨ ("primary" : String) = "secondary") ∧
    postMatch "primary" true true
        ⟨some "2025-09-04", some "Nepal", some "UAE", none, none⟩ freshSeededDb
      = ⟨423, false, none, freshSeededDb⟩ :=
  ⟨Or.inl rfl, postMatch_refused "primary" true true _ _ (Or.inl rfl)⟩

/-- C10: the write-refusal checks run before field validation, so a request
that both lacks a required field and meets a refusal condition gets 423 and
never 400. -/
theorem postMatch_refusal_precedes_validation (role : String) (ro queryOk : Bool)
    (body : MatchReq) (db : DbState)
    (hrefuse : ro = true ∨ role = "secondary")
    (hmissing : truthy body.matchDate = false ∨ truthy body.team1 = false ∨
      truthy body.team2 = false) :
    (postMatch role ro queryOk body db).httpStatus = 423 ∧
    (postMatch role ro queryOk body db).httpStatus ≠ 400 := by
  have hrun : postMatch role ro queryOk body db = ⟨423, false, none, db⟩ := by
    rcases hrefuse with h | h
    · subst h; rfl
    · subst h; cases ro <;> rfl
  rw [hrun]
  refine ⟨rfl, ?_⟩
  show (423 : Nat) ≠ 400
  decide

/-- Witness for C10 at a concrete request missing Team2. -/
theorem postMatch_refusal_precedes_validation_witness :
    ((true : Bool) = true ∨ ("primary" : String) = "secondary") ∧
    truthy (⟨some "2025-09-04", some "Nepal", none, none, none⟩ : MatchReq).team2 = false ∧
    (postMatch "primary" true true
        ⟨some "2025-09-04", some "Nepal", none, none, none⟩ freshSeededDb).httpStatus = 423 :=
  ⟨Or.inl rfl, rfl,
   (postMatch_refusal_precedes_validation "primary" true true
      ⟨some "2025-09-04", some "Nepal", none, none, none⟩ freshSeededDb
      (Or.inl rfl) (Or.inr (Or.inr rfl))).1⟩

/-- C7: on a primary with the read-only flag false and a succeeding insert,
a body carrying non-empty MatchDate, Team1 and Team2 (Venue and Stage
absent) gets 201 with the generated auto-increment identifier, while a body
missing Team2, MatchDate or Team1 gets 400 with no insert issued. -/
theorem postMatch_valid_201_missing_400 (db : DbState) (d t1 t2 : String)
    (hd : d ≠ "") (h1 : t1 ≠ "") (h2 : t2 ≠ "") :
    (postMatch "primary" false true ⟨some d, some t1, some t2, none, none⟩ db).httpStatus
      = 201 ∧
    (postMatch "primary" false true ⟨some d, some t1, some t2, none, none⟩ db).matchId
      = some db.nextMatchId ∧
    postMatch "primary" false true ⟨some d, some t1, none, none, none⟩ db
      = ⟨400, false, none, db⟩ ∧
    postMatch "primary" false true ⟨none, some t1, some t2, none, none⟩ db
      = ⟨400, false, none, db⟩ ∧
    postMatch "primary" false true ⟨some d, none, some t2, none, none⟩ db
      = ⟨400, false, none, db⟩ := by
  refine ⟨?_, ?_, ?_, ?_, ?_⟩ <;> simp [postMatch, truthy, hd, h1, h2]

/-- Witness for C7 at the concrete body of the spec scenario. -/
theorem postMatch_valid_201_missing_400_witness :
    ("2025-09-04" : String) ≠ "" ∧ ("Nepal" : String) ≠ "" ∧ ("UAE" : String) ≠ "" ∧
    (postMatch "primary" false true
        ⟨some "2025-09-04", some "Nepal", some "UAE", none, none⟩ freshSeededDb).httpStatus
      = 201 :=
  ⟨by decide, by decide, by decide,
   (postMatch_valid_201_missing_400 freshSeededDb "2025-09-04" "Nepal" "UAE"
      (by decide) (by decide) (by decide)).1⟩

/-- C8: for any stored permutation of the seed standings rows, the standings
endpoint returns the rows sorted by points descending with ties broken by
goal difference descending, and the output is a permutation of the stored
rows. -/
theorem standings_sorted_by_points_then_gd (db : List Standing)
    (hperm : db.Perm seedStandings) :
    getStandingsV1 true true true db = ⟨200, true, some (sortStandings db)⟩ ∧
    List.Sorted standingsLE (sortStandings db) ∧
    (sortStandings db).Perm db :=
  ⟨rfl, List.sorted_insertionSort standingsLE db, List.perm_insertionSort standingsLE db⟩

/-- Witness for C8 at a concrete shuffled seed table. -/
theorem standings_sorted_by_points_then_gd_witness :
    seedStandingsShuffled.Perm seedStandings ∧
    List.Sorted standingsLE (sortStandings seedStandingsShuffled) :=
  ⟨by decide, (standings_sorted_by_points_then_gd seedStandingsShuffled (by decide)).2.1⟩

/-- C9: the seed-insertion step never touches a table whose row count is
positive, and running it twice equals running it once. -/
theorem insertSampleData_idempotent (s : DbState) :
    (0 < s.groupMatches.length → (insertSampleData s).groupMatches = s.groupMatches) ∧
    (0 < s.standings.length → (insertSampleData s).standings = s.standings) ∧
    (0 < s.playerStats.length → (insertSampleData s).playerStats = s.playerStats) ∧
    insertSampleData (insertSampleData s) = insertSampleData s := by
  obtain ⟨m, nid, st, ps⟩ := s
  unfold insertSampleData seedIfEmptyMatches seedIfEmptyStandings seedIfEmptyPlayers
  by_cases hm : m.length = 0 <;> by_cases hst : st.length = 0 <;>
    by_cases hps : ps.length = 0 <;>
    simp_all [seedMatchRows, seedStandings, seedPlayerStats]

/-- Witness for C9 at the freshly seeded database. -/
theorem insertSampleData_idempotent_witness :
    0 < freshSeededDb.groupMatches.length ∧
    (insertSampleData freshSeededDb).groupMatches = freshSeededDb.groupMatches :=
  ⟨by decide, (insertSampleData_idempotent freshSeededDb).1 (by decide)⟩

/-- C6 counterexample: the second group-matches variant concatenated in
src/server.js answers 500, not 503, when the pool is uninitialized (its
thrown error lands in the generic catch), though it issues no query. -/
theorem groupMatchesV2_pool_absent_500 :
    getGroupMatchesV2 false true [] = ⟨500, false, none⟩ ∧ (500 : Nat) ≠ 503 :=
  ⟨rfl, by decide⟩

/-- C6 amended: in the flag-guarded variants (first src/server.js variant and
part_000), every read endpoint answers 503 with no query whenever the pool
is uninitialized or the connectivity flag is false; the second src/server.js
variant instead answers 500 with no query when the pool is uninitialized. -/
theorem reads_unavailable (connected poolInit queryOk : Bool)
    (dbM : List MatchRow) (dbS : List Standing) (dbP : List PlayerStat)
    (h : connected = false ∨ poolInit = false) :
    getGroupMatchesV1 connected poolInit queryOk dbM = ⟨503, false, none⟩ ∧
    getStandingsV1 connected poolInit queryOk dbS = ⟨503, false, none⟩ ∧
    getPlayerStatsV1 connected poolInit queryOk dbP = ⟨503, false, none⟩ ∧
    getGroupMatchesV2 false queryOk dbM = ⟨500, false, none⟩ := by
  rcases h with h | h
  · subst h; exact ⟨rfl, rfl, rfl, rfl⟩
  · subst h; cases connected <;> exact ⟨rfl, rfl, rfl, rfl⟩

/-- Witness for the amended C6 with an uninitialized pool. -/
theorem reads_unavailable_witness :
    ((false : Bool) = false ∨ (true : Bool) = false) ∧
    getGroupMatchesV1 false true true [] = ⟨503, false, none⟩ :=
  ⟨Or.inl rfl, (reads_unavailable false true true [] [] [] (Or.inl rfl)).1⟩

end AsiaCup
